import Mathlib

/-!
Verification of the adalanche local-machine analyzer module
(`modules/integrations/localmachine/analyze/analyzer.go`) against its
natural-language specification: SID remapping (`MapSID`), the edge-kind
descriptors with their probability calculators, the symbol registry, and
the path-scoring rule.
-/

set_option autoImplicit false
set_option linter.unusedVariables false

namespace Analyzer

/-- Modelled from the spec: a security identifier (`windowssecurity.SID`,
whose source is not part of the studied files) is a structured value with an
ordered sequence of numeric components. -/
abbrev SID := List Nat

/-- Modelled from the spec: component count of a security identifier. -/
def Components (s : SID) : Nat := s.length

/-- Modelled from the spec: last-component extraction, the relative
identifier; 0 when there is no component. -/
def RID (s : SID) : Nat := s.getLast?.getD 0

/-- Modelled from the spec: drop the last component of an identifier. -/
def StripRID (s : SID) : SID := s.dropLast

/-- Modelled from the spec: attach a new relative identifier to an
identifier, extending it by one component. -/
def AddComponent (s : SID) (c : Nat) : SID := s ++ [c]

/-- Translation of `MapSID` from `analyzer.go`: if the input SID is one
component longer than the original SID and it matches the original SID after
stripping its relative identifier, return the new SID with the input's
relative identifier appended; otherwise return the input unmapped. -/
def MapSID (original new input : SID) : SID :=
  if Components input = Components original + 1 then
    if StripRID input = original then
      AddComponent new (RID input)
    else input
  else input

/-- `MapSID` as a single conditional: it maps exactly when the component
count is one more than the original's and the stripped input equals the
original. -/
lemma mapSID_eq_ite (P Q id : SID) :
    MapSID P Q id =
      if Components id = Components P + 1 ∧ StripRID id = P then
        AddComponent Q (RID id)
      else id := by
  unfold MapSID
  by_cases h1 : Components id = Components P + 1 <;>
    by_cases h2 : StripRID id = P <;>
    simp [h1, h2]

/-- The relative identifier of an extended identifier is the added
component. -/
lemma rid_addComponent (s : SID) (c : Nat) : RID (AddComponent s c) = c := by
  simp [RID, AddComponent]

/-- Mapping an identifier that already extends the new SID by one component
leaves it unchanged up to re-appending its own relative identifier. -/
lemma mapSID_addComponent_self (P Q : SID) (c : Nat) :
    MapSID P Q (AddComponent Q c) = AddComponent Q c := by
  rw [mapSID_eq_ite]
  split
  · rw [rid_addComponent]
  · rfl

/-- C1: `MapSID P Q id` returns `Q` with `id`'s relative identifier appended
exactly when `id` has one more component than `P` and `id` stripped of its
last component equals `P`; in every other case it returns `id` unchanged. -/
theorem MapSID_remaps_exactly_on_match (P Q id : SID) :
    MapSID P Q id =
      if Components id = Components P + 1 ∧ StripRID id = P then
        AddComponent Q (RID id)
      else id :=
  mapSID_eq_ite P Q id

/-- C8: `MapSID` is total, and on any identifier that does not match the
original prefix — malformed or otherwise — it returns the input identifier
unchanged rather than failing. -/
theorem MapSID_total_nonmatch (P Q id : SID)
    (h : ¬ (Components id = Components P + 1 ∧ StripRID id = P)) :
    MapSID P Q id = id := by
  rw [mapSID_eq_ite]
  simp [h]

/-- Witness for C8 at a concrete non-matching input. -/
theorem MapSID_total_nonmatch_witness :
    MapSID [1, 2] [3] [9] = [9] :=
  MapSID_total_nonmatch [1, 2] [3] [9] (by decide)

/-- C10: `MapSID` is idempotent — applying the same remap twice gives the
same result as applying it once. -/
theorem MapSID_idempotent (P Q id : SID) :
    MapSID P Q (MapSID P Q id) = MapSID P Q id := by
  by_cases hc : Components id = Components P + 1 ∧ StripRID id = P
  · rw [mapSID_eq_ite P Q id, if_pos hc]
    exact mapSID_addComponent_self P Q (RID id)
  · rw [mapSID_eq_ite P Q id, if_neg hc, mapSID_eq_ite, if_neg hc]

/-- Modelled from the spec: an exploitability probability, an integer meant
to lie in `[0, 100]` (`engine.Probability`, whose source is not part of the
studied files). -/
abbrev Probability := Int

/-- Modelled from the spec: an object is a node mapping attribute handles to
typed values, with outbound and inbound adjacency keyed by neighbor and
valued by an edge-kind bitmask (`engine.Object`, whose source is not part of
the studied files). -/
structure Object where
  attrs : List (Nat × List Nat)
  outbound : List (Nat × Nat)
  inbound : List (Nat × Nat)

/-- Modelled from the spec: an edge-kind descriptor carries a human label,
zero or more classification tags, an optional description and an optional
probability calculator (`engine.Edge`, whose source is not part of the
studied files). -/
structure Edge where
  name : String
  tags : List String
  description : String
  calculator : Option (Object → Object → Probability)

/-- Modelled from the spec: register a fresh edge kind with the given label
and no tags, description or calculator. -/
def NewEdge (n : String) : Edge :=
  { name := n, tags := [], description := "", calculator := none }

/-- Modelled from the spec: attach a classification tag to an edge kind. -/
def Edge.Tag (e : Edge) (t : String) : Edge :=
  { e with tags := e.tags ++ [t] }

/-- Modelled from the spec: attach a human description to an edge kind. -/
def Edge.Describe (e : Edge) (d : String) : Edge :=
  { e with description := d }

/-- Modelled from the spec: attach a probability calculator to an edge
kind. -/
def Edge.RegisterProbabilityCalculator (e : Edge)
    (f : Object → Object → Probability) : Edge :=
  { e with calculator := some f }

/-- Translation of the calculator registered on `EdgeLocalRDPRights` in
`analyzer.go`: the probability starts at zero, the adjacency traversal is
disabled (commented out in the source), and the result is floored at 30. -/
def rdpRightsCalc (source target : Object) : Probability :=
  let probability : Probability := 0
  if probability < 30 then 30 else probability

/-- Translation of the calculator registered on `EdgeLocalDCOMRights`. -/
def dcomRightsCalc (source target : Object) : Probability := 50

/-- Translation of the calculator registered on `EdgeLocalSMSAdmins`. -/
def smsAdminsCalc (source target : Object) : Probability := 50

/-- Translation of the calculator registered on `EdgeLocalSessionLastDay`. -/
def sessionLastDayCalc (source target : Object) : Probability := 80

/-- Translation of the calculator registered on `EdgeLocalSessionLastWeek`. -/
def sessionLastWeekCalc (source target : Object) : Probability := 55

/-- Translation of the calculator registered on
`EdgeLocalSessionLastMonth`. -/
def sessionLastMonthCalc (source target : Object) : Probability := 30

/-- Translation of the calculator registered on `EdgeSeImpersonate`. -/
def seImpersonateCalc (source target : Object) : Probability := 20

/-- Translation of the calculator registered on
`EdgeSeNetworkLogonRight`. -/
def seNetworkLogonRightCalc (source target : Object) : Probability := 10

/-- Translation of the calculator registered on `EdgeSIDCollision`. -/
def sidCollisionCalc (source target : Object) : Probability := 0

/-- Translation of the edge-kind registrations from `analyzer.go`, in source
order. -/
def EdgeLocalAdminRights : Edge := (NewEdge "AdminRights").Tag "Granted"

def EdgeLocalRDPRights : Edge :=
  (((NewEdge "RDPRights").RegisterProbabilityCalculator rdpRightsCalc).Tag
      "Granted").Tag "Pivot"

def EdgeLocalDCOMRights : Edge :=
  ((NewEdge "DCOMRights").RegisterProbabilityCalculator dcomRightsCalc).Tag
    "Granted"

def EdgeLocalSMSAdmins : Edge :=
  ((NewEdge "SMSAdmins").RegisterProbabilityCalculator smsAdminsCalc).Tag
    "Granted"

def EdgeLocalSessionLastDay : Edge :=
  ((NewEdge "SessionLastDay").RegisterProbabilityCalculator
      sessionLastDayCalc).Tag "Pivot"

def EdgeLocalSessionLastWeek : Edge :=
  ((NewEdge "SessionLastWeek").RegisterProbabilityCalculator
      sessionLastWeekCalc).Tag "Pivot"

def EdgeLocalSessionLastMonth : Edge :=
  ((NewEdge "SessionLastMonth").RegisterProbabilityCalculator
      sessionLastMonthCalc).Tag "Pivot"

def EdgeHasServiceAccountCredentials : Edge :=
  (NewEdge "SvcAccntCreds").Tag "Pivot"

def EdgeHasAutoAdminLogonCredentials : Edge :=
  (NewEdge "AutoAdminLogonCreds").Tag "Pivot"

def EdgeRunsExecutable : Edge := NewEdge "RunsExecutable"

def EdgeHosts : Edge := NewEdge "Hosts"

def EdgeExecuted : Edge := NewEdge "Executed"

def EdgeMemberOfGroup : Edge := NewEdge "MemberOfGroup"

def EdgeFileWrite : Edge := NewEdge "FileWrite"

def EdgeFileRead : Edge := NewEdge "FileRead"

def EdgeShares : Edge :=
  (NewEdge "Shares").Describe "Machine offers a file share"

def EdgeRegistryOwns : Edge := NewEdge "RegistryOwns"

def EdgeRegistryWrite : Edge := NewEdge "RegistryWrite"

def EdgeRegistryModifyDACL : Edge := NewEdge "RegistryModifyDACL"

def EdgeRegistryModifyOwner : Edge := NewEdge "RegistryModifyOwner"

def EdgeSeBackupPrivilege : Edge := NewEdge "SeBackupPrivilege"

def EdgeSeRestorePrivilege : Edge := NewEdge "SeRestorePrivilege"

def EdgeSeTakeOwnershipPrivilege : Edge :=
  NewEdge "SeTakeOwnershipPrivilege"

def EdgeSeAssignPrimaryToken : Edge :=
  (NewEdge "SeAssignPrimaryToken").Tag "Pivot"

def EdgeSeCreateToken : Edge := (NewEdge "SeCreateToken").Tag "Pivot"

def EdgeSeDebug : Edge := (NewEdge "SeDebug").Tag "Pivot"

def EdgeSeImpersonate : Edge :=
  ((NewEdge "SeImpersonate").RegisterProbabilityCalculator
      seImpersonateCalc).Tag "Pivot"

def EdgeSeLoadDriver : Edge := (NewEdge "SeLoadDriver").Tag "Pivot"

def EdgeSeManageVolume : Edge := (NewEdge "SeManageVolume").Tag "Pivot"

def EdgeSeTakeOwnership : Edge := (NewEdge "SeTakeOwnership").Tag "Pivot"

def EdgeSeTrustedCredManAccess : Edge :=
  (NewEdge "SeTrustedCredManAccess").Tag "Pivot"

def EdgeSeTcb : Edge := (NewEdge "SeTcb").Tag "Pivot"

def EdgeSeNetworkLogonRight : Edge :=
  (NewEdge "SeNetworkLogonRight").RegisterProbabilityCalculator
    seNetworkLogonRightCalc

def EdgeSIDCollision : Edge :=
  ((NewEdge "SIDCollision").Tag "Informative").RegisterProbabilityCalculator
    sidCollisionCalc

def EdgeControlsUpdates : Edge := (NewEdge "ControlsUpdates").Tag "Affects"

def EdgePublishes : Edge := (NewEdge "Publishes").Tag "Informative"

/-- Every edge kind registered by `analyzer.go`, in source order. -/
def analyzerEdges : List Edge :=
  [EdgeLocalAdminRights, EdgeLocalRDPRights, EdgeLocalDCOMRights,
   EdgeLocalSMSAdmins, EdgeLocalSessionLastDay, EdgeLocalSessionLastWeek,
   EdgeLocalSessionLastMonth, EdgeHasServiceAccountCredentials,
   EdgeHasAutoAdminLogonCredentials, EdgeRunsExecutable, EdgeHosts,
   EdgeExecuted, EdgeMemberOfGroup, EdgeFileWrite, EdgeFileRead, EdgeShares,
   EdgeRegistryOwns, EdgeRegistryWrite, EdgeRegistryModifyDACL,
   EdgeRegistryModifyOwner, EdgeSeBackupPrivilege, EdgeSeRestorePrivilege,
   EdgeSeTakeOwnershipPrivilege, EdgeSeAssignPrimaryToken, EdgeSeCreateToken,
   EdgeSeDebug, EdgeSeImpersonate, EdgeSeLoadDriver, EdgeSeManageVolume,
   EdgeSeTakeOwnership, EdgeSeTrustedCredManAccess, EdgeSeTcb,
   EdgeSeNetworkLogonRight, EdgeSIDCollision, EdgeControlsUpdates,
   EdgePublishes]

/-- Modelled from the spec: one traversed edge instance on a path, with its
edge kind and its concrete endpoints. -/
structure PathEdge where
  edge : Edge
  source : Object
  target : Object

/-- Modelled from the spec: the probability of a concrete edge instance is
its edge kind's calculator applied to the endpoints; an edge kind without a
calculator is treated as maximal probability. -/
def edgeProbOf (e : Edge) (s t : Object) : Probability :=
  match e.calculator with
  | some f => f s t
  | none => 100

/-- The probability of a path edge. -/
def edgeProb (pe : PathEdge) : Probability :=
  edgeProbOf pe.edge pe.source pe.target

/-- An edge kind tagged "Informative" carries no offensive value and is
excluded from scoring. -/
def isInformativeEdge (e : Edge) : Bool := e.tags.contains "Informative"

/-- Modelled from the spec: the path engine accumulates the score during
traversal, starting from maximal probability and taking the minimum with
each non-informative edge's lazily evaluated probability; informative edges
are skipped. -/
def pathScoreAux : Probability → List PathEdge → Probability
  | acc, [] => acc
  | acc, pe :: rest =>
    if isInformativeEdge pe.edge then pathScoreAux acc rest
    else pathScoreAux (min acc (edgeProb pe)) rest

/-- Modelled from the spec: the score of a path. -/
def pathScore (p : List PathEdge) : Probability := pathScoreAux 100 p

/-- A fold of `min` seeded at 100 never exceeds 100. -/
lemma foldr_min_le_seed (l : List Probability) : l.foldr min 100 ≤ 100 := by
  induction l with
  | nil => exact le_refl _
  | cons a l ih => exact le_trans (min_le_right a _) ih

/-- The traversal accumulator computes the minimum of the seed and the
non-informative edge probabilities. -/
lemma pathScoreAux_eq_min (p : List PathEdge) :
    ∀ acc : Probability, acc ≤ 100 →
      pathScoreAux acc p =
        min acc
          (((p.filter fun pe => !isInformativeEdge pe.edge).map
            edgeProb).foldr min 100) := by
  induction p with
  | nil =>
    intro acc h
    simp [pathScoreAux, min_eq_left h]
  | cons pe rest ih =>
    intro acc h
    by_cases hinf : isInformativeEdge pe.edge
    · simp [pathScoreAux, hinf, ih acc h]
    · have h2 : min acc (edgeProb pe) ≤ 100 :=
        le_trans (min_le_left _ _) h
      simp [pathScoreAux, hinf, ih _ h2, min_assoc]

/-- A concrete object with no attributes and no adjacency. -/
def emptyObject : Object := { attrs := [], outbound := [], inbound := [] }

/-- A second concrete object, distinct from `emptyObject`. -/
def oneAttrObject : Object :=
  { attrs := [(1, [2])], outbound := [], inbound := [] }

/-- C3: the RDPRights edge kind's probability calculator falls back to a
constant conservative floor — its result is at least 30 on every pair of
objects. -/
theorem RDPRights_calculator_floor_30 :
    EdgeLocalRDPRights.calculator = some rdpRightsCalc ∧
      ∀ source target : Object, 30 ≤ rdpRightsCalc source target := by
  refine ⟨rfl, ?_⟩
  intro source target
  norm_num [rdpRightsCalc]

/-- C9: the RDPRights edge kind's probability calculator is a constant
function — it ignores both arguments and always returns exactly 30, the
adjacency traversal being disabled in the source. -/
theorem RDPRights_calculator_constant :
    EdgeLocalRDPRights.calculator = some rdpRightsCalc ∧
      (∀ s t s2 t2 : Object, rdpRightsCalc s t = rdpRightsCalc s2 t2) ∧
      ∀ s t : Object, rdpRightsCalc s t = 30 := by
  refine ⟨rfl, fun s t s2 t2 => rfl, fun s t => ?_⟩
  norm_num [rdpRightsCalc]

/-- C2: no probability calculator registered on an edge kind of the
analyzer depends on its arguments at all — each is a constant function of
the (source, target) pair, so evaluating it terminates without invoking any
other calculator. -/
theorem calculators_nonrecursive :
    ∀ e ∈ analyzerEdges, ∀ c, e.calculator = some c →
      ∀ s t s2 t2 : Object, c s t = c s2 t2 := by
  intro e he
  simp only [analyzerEdges, List.mem_cons, List.not_mem_nil, or_false] at he
  rcases he with rfl | rfl | rfl | rfl | rfl | rfl | rfl | rfl | rfl | rfl |
    rfl | rfl | rfl | rfl | rfl | rfl | rfl | rfl | rfl | rfl | rfl | rfl |
    rfl | rfl | rfl | rfl | rfl | rfl | rfl | rfl | rfl | rfl | rfl | rfl |
    rfl | rfl
  all_goals
    first
      | exact fun c hc => Option.noConfusion hc
      | (intro c hc
         injection hc with h
         subst h
         intro s t s2 t2
         rfl)

/-- Witness for C2: the RDPRights calculator yields the same value on two
different argument pairs. -/
theorem calculators_nonrecursive_witness :
    rdpRightsCalc emptyObject emptyObject =
      rdpRightsCalc oneAttrObject emptyObject :=
  calculators_nonrecursive EdgeLocalRDPRights
    (List.mem_cons_of_mem _ (List.mem_cons_self _ _)) rdpRightsCalc rfl
    emptyObject emptyObject oneAttrObject emptyObject

/-- C4: every probability calculator registered on an edge kind of the
analyzer returns a value in `[0, 100]` on every pair of objects. -/
theorem calculators_in_range :
    ∀ e ∈ analyzerEdges, ∀ c, e.calculator = some c →
      ∀ s t : Object, 0 ≤ c s t ∧ c s t ≤ 100 := by
  intro e he
  simp only [analyzerEdges, List.mem_cons, List.not_mem_nil, or_false] at he
  rcases he with rfl | rfl | rfl | rfl | rfl | rfl | rfl | rfl | rfl | rfl |
    rfl | rfl | rfl | rfl | rfl | rfl | rfl | rfl | rfl | rfl | rfl | rfl |
    rfl | rfl | rfl | rfl | rfl | rfl | rfl | rfl | rfl | rfl | rfl | rfl |
    rfl | rfl
  all_goals
    first
      | exact fun c hc => Option.noConfusion hc
      | (intro c hc
         injection hc with h
         subst h
         intro s t
         constructor <;>
           norm_num [rdpRightsCalc, dcomRightsCalc, smsAdminsCalc,
             sessionLastDayCalc, sessionLastWeekCalc, sessionLastMonthCalc,
             seImpersonateCalc, seNetworkLogonRightCalc, sidCollisionCalc])

/-- Witness for C4 at the RDPRights calculator on concrete objects. -/
theorem calculators_in_range_witness :
    0 ≤ rdpRightsCalc emptyObject emptyObject ∧
      rdpRightsCalc emptyObject emptyObject ≤ 100 :=
  calculators_in_range EdgeLocalRDPRights
    (List.mem_cons_of_mem _ (List.mem_cons_self _ _)) rdpRightsCalc rfl
    emptyObject emptyObject

/-- C5: the SID-collision edge kind carries zero probability on every pair
of objects, is tagged "Informative", and leaves every path score unchanged
when traversed. -/
theorem SIDCollision_zero_informative :
    (∀ s t : Object, edgeProbOf EdgeSIDCollision s t = 0) ∧
      "Informative" ∈ EdgeSIDCollision.tags ∧
      ∀ (p : List PathEdge) (s t : Object),
        pathScore (⟨EdgeSIDCollision, s, t⟩ :: p) = pathScore p := by
  refine ⟨fun s t => rfl, by decide, fun p s t => ?_⟩
  simp [pathScore, pathScoreAux, isInformativeEdge, EdgeSIDCollision,
    NewEdge, Edge.Tag, Edge.RegisterProbabilityCalculator]

/-- C6: a path's score equals the minimum probability over its
non-informative edges (100, the maximal probability, when there are none);
in particular a path of a single RDPRights edge, whose calculator assigns
probability 30, scores exactly 30. -/
theorem pathScore_eq_min_edgeProb (p : List PathEdge) :
    pathScore p =
      ((p.filter fun pe => !isInformativeEdge pe.edge).map
        edgeProb).foldr min 100 ∧
      ∀ s t : Object, pathScore [⟨EdgeLocalRDPRights, s, t⟩] = 30 := by
  constructor
  · rw [pathScore, pathScoreAux_eq_min p 100 (le_refl _)]
    exact min_eq_right (foldr_min_le_seed _)
  · intro s t
    norm_num [pathScore, pathScoreAux, isInformativeEdge, EdgeLocalRDPRights,
      NewEdge, Edge.Tag, Edge.RegisterProbabilityCalculator, edgeProb,
      edgeProbOf, rdpRightsCalc]
    decide

/-- Modelled from the spec: a SymbolRegistry interns a name string to a
stable, immutable numeric handle, created on first use; the handle of a name
is its position in the registration order. -/
structure SymbolRegistry where
  names : List String

/-- Position of a name among the registered names, if present. -/
def lookupHandle : List String → String → Option Nat
  | [], _ => none
  | x :: xs, n => if x = n then some 0 else (lookupHandle xs n).map (· + 1)

/-- Modelled from the spec: `Register` returns the existing handle when the
name is already interned, and otherwise appends the name, binding it to the
next handle. -/
def Register (r : SymbolRegistry) (n : String) : SymbolRegistry × Nat :=
  match lookupHandle r.names n with
  | some h => (r, h)
  | none => (⟨r.names ++ [n]⟩, r.names.length)

/-- A name absent from a list of names is found at the end after being
appended there. -/
lemma lookupHandle_append_self (xs : List String) (n : String)
    (h : lookupHandle xs n = none) :
    lookupHandle (xs ++ [n]) n = some xs.length := by
  induction xs with
  | nil => simp [lookupHandle]
  | cons x xs ih =>
    rw [lookupHandle] at h
    by_cases hx : x = n
    · simp [hx] at h
    · rw [if_neg hx, Option.map_eq_none'] at h
      simp [lookupHandle, hx, ih h]

/-- Registering a name in a registry that already holds it returns the
registry and the name's existing handle unchanged. -/
lemma register_idem (r : SymbolRegistry) (n : String) :
    Register (Register r n).1 n = Register r n := by
  unfold Register
  cases hl : lookupHandle r.names n with
  | some h => simp [hl]
  | none => simp [lookupHandle_append_self r.names n hl]

/-- Registering `n` once and then `k` further times. -/
def registerTimes (r : SymbolRegistry) (n : String) : Nat → SymbolRegistry × Nat
  | 0 => Register r n
  | Nat.succ k => Register (registerTimes r n k).1 n

/-- C7: registration is idempotent — registering a name any number of times
yields the same registry and the identical numeric handle that the first
registration of that name produced. -/
theorem Register_idempotent (r : SymbolRegistry) (n : String) (k : Nat) :
    registerTimes r n k = Register r n := by
  induction k with
  | zero => rfl
  | succ k ih => rw [registerTimes, ih, register_idem]

end Analyzer
